import Mathlib

/-!
Verification of the schema-driven extraction pipeline of
`src/backend/server/main.py` (langchain-extract).

A shallow embedding: JSON values are an inductive type, Python dicts are
association lists, the external collaborators (the `jsonschema` library's
`Draft202012Validator.check_schema`, the LLM service) are explicit function
parameters, and each pipeline operation additionally returns the ordered
trace of the observable events it performed (schema validation, schema
conversion, prompt building, LLM invocation, registry lookup), so that
claims of the form "the LLM service is never invoked" or "validation runs
exactly once" become statements about the trace.
-/

namespace LangchainExtract

/-- JSON values, as passed around by the Python code. -/
inductive Json where
  | null
  | bool (b : Bool)
  | num (n : Int)
  | str (s : String)
  | arr (xs : List Json)
  | obj (fields : List (String × Json))
deriving BEq, Repr, Inhabited

/-- A Python `dict` keyed by strings, as used for `json_schema` values
(the pydantic field type is `Dict[str, Any]`). -/
abbrev JsonDict := List (String × Json)

/-- `d.get(k)`: the value at key `k`, if present (first binding wins,
as in a Python dict where keys are unique). -/
def dictGet (d : JsonDict) (k : String) : Option Json :=
  (d.find? (fun p => p.1 == k)).map (fun p => p.2)

/-- `d.get(k, default)`: Python `dict.get` with a default. -/
def dictGetD (d : JsonDict) (k : String) (default : Json) : Json :=
  (dictGet d k).getD default

/-- Remove a key from a dict (used by the schema-to-function converter,
which repackages the schema minus the fields it consumed). -/
def dictErase (d : JsonDict) (k : String) : JsonDict :=
  d.filter (fun p => !(p.1 == k))

/-- Modelled from the spec: `FewShotExample` is imported from
`extraction.utils`, which is not under `src/`. Per §3 it is "an input text
and a corresponding expected structured output". -/
structure FewShotExample where
  text : String
  output : Json
deriving BEq, Repr

/-- Observable events of one request's processing, in execution order. -/
inductive Event where
  /-- structural validation of the JSON schema (validator component) -/
  | validation
  /-- conversion of the schema into a function descriptor -/
  | conversion
  /-- prompt template construction -/
  | promptBuild
  /-- one call to the LLM completion service -/
  | llmInvoke
  /-- lookup of a stored extractor in the registry -/
  | registryLookup
deriving DecidableEq, Repr

/-- Errors surfaced by the endpoints: FastAPI `HTTPException`s with a
status code and detail string, and Python `AssertionError` (from a bare
`assert`, no detail). -/
inductive ExtractError where
  | http (status : Nat) (detail : String)
  | assertionError
deriving BEq, Repr

/-- `ExtractRequest` (main.py lines 61-76): request body of the primary
extract endpoint. -/
structure ExtractRequest where
  text : String
  json_schema : JsonDict
  instructions : Option String
  examples : Option (List FewShotExample)
deriving BEq, Repr

/-- `ExtractResponse` (main.py lines 85-88): `extracted` is `Any`. -/
structure ExtractResponse where
  extracted : Json
deriving BEq, Repr

/-- Modelled from the spec: `validate_json_schema` lives in
`server.validators`, which is not under `src/`. Per §4.1 it checks the
schema is structurally valid under Draft 2020-12 and on failure signals an
error carrying the underlying validator's message. Its verdict is an
external input here: a validator returns `none` on success and
`some message` on failure. -/
abbrev SchemaValidator := JsonDict → Option String

/-- The LLM completion service (external collaborator, §6): given the
function descriptor, the prompt parts and the bound input text, it returns
the structured call arguments. Kept fully abstract. -/
abbrev LlmService := Json → List Json → String → Json

/-- `ExtractRequest` construction (main.py lines 61-82): pydantic runs the
`validate_schema` field validator, which calls `validate_json_schema` on
the submitted schema; if that raises, construction of the request object
fails with the validator's message. -/
def mkExtractRequest (validate : SchemaValidator) (text : String)
    (json_schema : JsonDict) (instructions : Option String)
    (examples : Option (List FewShotExample)) :
    Except String ExtractRequest × List Event :=
  match validate json_schema with
  | some msg => (Except.error msg, [Event.validation])
  | none =>
      (Except.ok ⟨text, json_schema, instructions, examples⟩,
       [Event.validation])

/-- Modelled from the spec: `convert_json_schema_to_openai_schema` lives in
`extraction.utils`, which is not under `src/`. Per §4.2 it deterministically
repackages a validated schema as `{name, description, parameters}`:
`name` from the schema's `title` (else empty), `description` from its
`description` (else empty), `parameters` the schema minus those fields,
with no semantic transformation and no failure. -/
def convert_json_schema_to_openai_schema (schema : JsonDict) : Json :=
  Json.obj
    [("name", dictGetD schema "title" (Json.str "")),
     ("description", dictGetD schema "description" (Json.str "")),
     ("parameters",
      Json.obj (dictErase (dictErase schema "title") "description"))]

/-- One rendered few-shot exchange: the example's input as a human message
and its expected structured output as an assistant message. -/
def renderExample (ex : FewShotExample) : List Json :=
  [Json.obj [("role", Json.str "human"), ("content", Json.str ex.text)],
   Json.obj [("role", Json.str "ai"), ("content", ex.output)]]

/-- The fixed boilerplate extraction directive followed by the
caller-supplied instructions (if any) and the schema name (if non-empty). -/
def systemMessage (instructions : Option String) (name : Json) : Json :=
  let base := "You are an extraction system."
  let withInstructions : String :=
    match instructions with
    | none => base
    | some s => base ++ " " ++ s
  let withName : String :=
    match name with
    | Json.str "" => withInstructions
    | Json.str n =>
        withInstructions ++ " Extract information about a " ++ n ++ "."
    | _ => withInstructions
  Json.obj [("role", Json.str "system"), ("content", Json.str withName)]

/-- The message holding the input text bound at call time (always the final
component of the prompt). -/
def inputMsg (text : String) : Json :=
  Json.obj [("role", Json.str "human"), ("content", Json.str text)]

/-- Modelled from the spec: `make_prompt_template` lives in
`extraction.utils`, which is not under `src/`. Per §4.3 the prompt is, in
fixed order: one system message (boilerplate, then instructions if present,
then the schema name if non-empty), then each few-shot example rendered as
an input/expected-output exchange in the given order, then the bound input
`text`, always present and always last. Only `text` is bound at call time,
so the builder returns a function of the input text. -/
def make_prompt_template (instructions : Option String)
    (examples : Option (List FewShotExample)) (name : Json) :
    String → List Json :=
  fun text =>
    [systemMessage instructions name]
      ++ (examples.getD []).flatMap renderExample
      ++ [inputMsg text]

/-- Line 101 of main.py: `name = schema.get("title", "")` — the schema
name used for prompt building, taken verbatim from the schema's `title`
field, defaulting to the empty string when `title` is absent. -/
def schemaName (schema : JsonDict) : Json :=
  dictGetD schema "title" (Json.str "")

/-- `extraction_runnable` (main.py lines 94-118): reads the schema, derives
`name = schema.get("title", "")`, checks the schema with
`Draft202012Validator.check_schema` (raising HTTP 422 with the validator's
message on failure), then builds the prompt, converts the schema to an
OpenAI function descriptor, invokes the LLM once on the request text, and
wraps the returned call arguments in an `ExtractResponse`.
`check_schema` (the `jsonschema` library) and the LLM service are external
collaborators, passed as parameters. -/
def extraction_runnable (check_schema : SchemaValidator) (llm : LlmService)
    (extraction_request : ExtractRequest) :
    Except ExtractError ExtractResponse × List Event :=
  let schema := extraction_request.json_schema
  let name := schemaName schema
  match check_schema schema with
  | some msg =>
      (Except.error (ExtractError.http 422 ("Invalid schema: " ++ msg)),
       [Event.validation])
  | none =>
      let prompt :=
        make_prompt_template extraction_request.instructions
          extraction_request.examples name
      let openai_function := convert_json_schema_to_openai_schema schema
      let extracted_content :=
        llm openai_function (prompt extraction_request.text)
          extraction_request.text
      (Except.ok ⟨extracted_content⟩,
       [Event.validation, Event.promptBuild, Event.conversion,
        Event.llmInvoke])

/-- End-to-end processing of one request through the primary entry point:
langserve constructs the `ExtractRequest` from the payload (running the
pydantic schema validator) and then runs `extraction_runnable` on it. -/
def end_to_end (validate : SchemaValidator) (check_schema : SchemaValidator)
    (llm : LlmService) (text : String) (json_schema : JsonDict)
    (instructions : Option String)
    (examples : Option (List FewShotExample)) :
    Except ExtractError ExtractResponse × List Event :=
  match mkExtractRequest validate text json_schema instructions examples with
  | (Except.error msg, evs) =>
      (Except.error (ExtractError.http 422 msg), evs)
  | (Except.ok req, evs) =>
      let r := extraction_runnable check_schema llm req
      (r.1, evs ++ r.2)

/-- Modelled from the spec: the `Extractor` ORM model lives in `db.models`,
which is not under `src/`. Per §3 it is a persisted triple
(schema, instructions, examples) with a unique identifier; `main.py` reads
its `uuid`, `schema` and `examples` attributes. -/
structure Extractor where
  uuid : Nat
  schema : JsonDict
  instructions : Option String
  examples : List FewShotExample
deriving BEq, Repr

/-- `ExtractFromFileRequest` (main.py lines 121-125). -/
structure ExtractFromFileRequest where
  extractor_id : Nat
  text : String
deriving BEq, Repr

/-- `extract_using_existing_extractor` (main.py lines 128-149): looks the
extractor up by uuid in the session (modelled as a list of stored rows);
404 if absent; otherwise reads the stored schema and examples, asserts
`examples == []`, and returns `ExtractResponse(extracted="placeholder")`. -/
def extract_using_existing_extractor (db : List Extractor)
    (extract_request : ExtractFromFileRequest) :
    Except ExtractError ExtractResponse × List Event :=
  match db.find? (fun e => e.uuid == extract_request.extractor_id) with
  | none =>
      (Except.error (ExtractError.http 404 "Extractor not found."),
       [Event.registryLookup])
  | some extractor =>
      let examples := extractor.examples
      if examples == [] then
        (Except.ok ⟨Json.str "placeholder"⟩, [Event.registryLookup])
      else
        (Except.error ExtractError.assertionError, [Event.registryLookup])

/-! Concrete fixtures used to instantiate the theorems below. -/

/-- A schema validator that accepts everything (the verdict of the external
validator on a well-formed schema). -/
def noneChecker : SchemaValidator := fun _ => none

/-- A schema validator that rejects exactly the schemas whose `type` field
is the string `"bogus"`, with a fixed message — the verdict Draft 2020-12
checking gives on the spec's example invalid schema. -/
def bogusChecker : SchemaValidator :=
  fun d =>
    match dictGet d "type" with
    | some (Json.str "bogus") => some "bogus is not a valid type"
    | _ => none

/-- An LLM service stub returning a fixed structured value. -/
def johnLlm : LlmService :=
  fun _ _ _ => Json.obj [("name", Json.str "John"), ("age", Json.num 30)]

/-- The spec's example schema with `title: "Person"`. -/
def personSchema : JsonDict :=
  [("title", Json.str "Person"), ("type", Json.str "object"),
   ("properties",
    Json.obj [("name", Json.obj [("type", Json.str "string")]),
              ("age", Json.obj [("type", Json.str "integer")])])]

/-- The spec's example invalid schema `{"type": "bogus"}`. -/
def bogusSchema : JsonDict := [("type", Json.str "bogus")]

/-- A request carrying the invalid schema. -/
def reqBogus : ExtractRequest := ⟨"John is 30", bogusSchema, none, none⟩

/-- A request carrying the Person schema. -/
def reqPerson : ExtractRequest := ⟨"John is 30", personSchema, none, none⟩

/-- A stored extractor with the Person schema and no examples. -/
def storedPerson : Extractor := ⟨7, personSchema, none, []⟩

/-- A stored extractor with one few-shot example. -/
def storedWithExample : Extractor :=
  ⟨9, personSchema, none, [⟨"Jane is 25", Json.obj [("name", Json.str "Jane")]⟩]⟩

/-- The registry contents for the secondary-endpoint theorems. -/
def registryDb : List Extractor := [storedPerson, storedWithExample]

/-- A lookup request that resolves to `storedPerson`. -/
def fileReq7 : ExtractFromFileRequest := ⟨7, "John is 30"⟩

/-- A lookup request that resolves to `storedWithExample`. -/
def fileReq9 : ExtractFromFileRequest := ⟨9, "John is 30"⟩

/-- A lookup request whose identifier resolves to nothing. -/
def fileReqUnknown : ExtractFromFileRequest := ⟨42, "John is 30"⟩

/-- C1: for every extraction request whose json_schema the Draft 2020-12
structural check rejects, `extraction_runnable` fails with HTTP 422
carrying the validator's message, and the LLM service is never invoked for
that request (the event trace stops at the validation). -/
theorem extraction_runnable_invalid_schema_fails_without_llm
    (check_schema : SchemaValidator) (llm : LlmService)
    (req : ExtractRequest) (msg : String)
    (h : check_schema req.json_schema = some msg) :
    (extraction_runnable check_schema llm req).1
        = Except.error (ExtractError.http 422 ("Invalid schema: " ++ msg))
    ∧ Event.llmInvoke ∉ (extraction_runnable check_schema llm req).2 := by
  simp [extraction_runnable, h]

/-- C1 witness: the invalid schema `{"type": "bogus"}` is rejected with
HTTP 422 and no LLM invocation occurs. -/
theorem extraction_runnable_invalid_schema_fails_without_llm_witness :
    bogusChecker reqBogus.json_schema = some "bogus is not a valid type"
    ∧ ((extraction_runnable bogusChecker johnLlm reqBogus).1
        = Except.error
            (ExtractError.http 422 "Invalid schema: bogus is not a valid type")
       ∧ Event.llmInvoke ∉ (extraction_runnable bogusChecker johnLlm reqBogus).2) :=
  ⟨rfl,
   extraction_runnable_invalid_schema_fails_without_llm bogusChecker johnLlm
     reqBogus "bogus is not a valid type" rfl⟩

/-- C3: for every successful run of `extraction_runnable`, the value placed
in `ExtractResponse.extracted` is exactly the structured call arguments the
LLM service returned — whatever function the service computes — and nothing
happens after the LLM invocation (no re-validation of the output against
the request's schema appears in the trace). -/
theorem extraction_runnable_returns_llm_output_unmodified
    (check_schema : SchemaValidator) (llm : LlmService)
    (req : ExtractRequest) (h : check_schema req.json_schema = none) :
    (extraction_runnable check_schema llm req).1
        = Except.ok
            ⟨llm (convert_json_schema_to_openai_schema req.json_schema)
              (make_prompt_template req.instructions req.examples
                (schemaName req.json_schema) req.text)
              req.text⟩
    ∧ (extraction_runnable check_schema llm req).2
        = [Event.validation, Event.promptBuild, Event.conversion,
           Event.llmInvoke] := by
  simp [extraction_runnable, h]

/-- C3 witness: with a stub LLM returning `{name: "John", age: 30}`, the
response's `extracted` is exactly that value. -/
theorem extraction_runnable_returns_llm_output_unmodified_witness :
    bogusChecker reqPerson.json_schema = none
    ∧ ((extraction_runnable bogusChecker johnLlm reqPerson).1
        = Except.ok
            ⟨johnLlm (convert_json_schema_to_openai_schema reqPerson.json_schema)
              (make_prompt_template reqPerson.instructions reqPerson.examples
                (schemaName reqPerson.json_schema) reqPerson.text)
              reqPerson.text⟩
       ∧ (extraction_runnable bogusChecker johnLlm reqPerson).2
          = [Event.validation, Event.promptBuild, Event.conversion,
             Event.llmInvoke]) :=
  ⟨rfl,
   extraction_runnable_returns_llm_output_unmodified bogusChecker johnLlm
     reqPerson rfl⟩

/-- C5: for every lookup request whose extractor_id does not resolve,
`extract_using_existing_extractor` fails with HTTP 404 "Extractor not
found.", and the trace holds only the registry lookup — no schema
validation, conversion, prompt building, or LLM work. -/
theorem extract_using_existing_extractor_not_found
    (db : List Extractor) (req : ExtractFromFileRequest)
    (h : db.find? (fun e => e.uuid == req.extractor_id) = none) :
    (extract_using_existing_extractor db req).1
        = Except.error (ExtractError.http 404 "Extractor not found.")
    ∧ (extract_using_existing_extractor db req).2 = [Event.registryLookup] := by
  simp [extract_using_existing_extractor, h]

/-- C5 witness: identifier 42 is not in the registry; the endpoint returns
404 and performs nothing but the lookup. -/
theorem extract_using_existing_extractor_not_found_witness :
    registryDb.find? (fun e => e.uuid == fileReqUnknown.extractor_id) = none
    ∧ ((extract_using_existing_extractor registryDb fileReqUnknown).1
        = Except.error (ExtractError.http 404 "Extractor not found.")
       ∧ (extract_using_existing_extractor registryDb fileReqUnknown).2
          = [Event.registryLookup]) :=
  ⟨rfl, extract_using_existing_extractor_not_found registryDb fileReqUnknown rfl⟩

/-- C9: when the extractor_id resolves to a stored extractor whose examples
list is non-empty, the endpoint fails with an assertion error; a successful
response is only possible when the stored examples equal the empty list. -/
theorem extract_using_existing_extractor_asserts_empty_examples
    (db : List Extractor) (req : ExtractFromFileRequest) (ex : Extractor)
    (h : db.find? (fun e => e.uuid == req.extractor_id) = some ex) :
    ((∃ r, (extract_using_existing_extractor db req).1 = Except.ok r)
        → ex.examples = [])
    ∧ (ex.examples ≠ [] →
        (extract_using_existing_extractor db req).1
          = Except.error ExtractError.assertionError) := by
  simp only [extract_using_existing_extractor, h]
  cases hex : ex.examples with
  | nil => simp
  | cons a as => simp

/-- C9 witness: the stored extractor with one example makes the endpoint
fail with an assertion error. -/
theorem extract_using_existing_extractor_asserts_empty_examples_witness :
    registryDb.find? (fun e => e.uuid == fileReq9.extractor_id)
        = some storedWithExample
    ∧ storedWithExample.examples ≠ []
    ∧ (extract_using_existing_extractor registryDb fileReq9).1
        = Except.error ExtractError.assertionError :=
  ⟨rfl, fun hcon => by simp [storedWithExample] at hcon,
   (extract_using_existing_extractor_asserts_empty_examples registryDb fileReq9
      storedWithExample rfl).2 (fun hcon => by simp [storedWithExample] at hcon)⟩

/-- Each rendered few-shot exchange contributes exactly two messages. -/
theorem flatMap_renderExample_length (exs : List FewShotExample) :
    (exs.flatMap renderExample).length = 2 * exs.length := by
  induction exs with
  | nil => rfl
  | cons a as ih => simp [renderExample, ih]; ring

/-- C2: with a resolvable extractor the secondary endpoint does none of the
pipeline: the response is the literal string "placeholder" — independent of
the stored schema — and the trace holds only the registry lookup: no schema
validation, no conversion, no prompt building, no LLM invocation. -/
theorem extract_using_existing_extractor_returns_placeholder :
    extract_using_existing_extractor registryDb fileReq7
      = (Except.ok ⟨Json.str "placeholder"⟩, [Event.registryLookup]) := rfl

/-- C4 as stated is false: an end-to-end request performs structural schema
validation twice (request construction and extraction_runnable), not
exactly once. -/
theorem end_to_end_single_validation_counterexample :
    ¬ ((end_to_end noneChecker noneChecker johnLlm "John is 30" personSchema
          none none).2.count Event.validation = 1) := by decide

/-- C4 corrected: per end-to-end request, structural validation of the
json_schema runs exactly twice — once at ExtractRequest construction and
once inside extraction_runnable — and both runs precede the single
conversion of the schema to a function descriptor. -/
theorem end_to_end_validates_twice_before_conversion
    (validate check_schema : SchemaValidator) (llm : LlmService)
    (text : String) (schema : JsonDict) (instructions : Option String)
    (examples : Option (List FewShotExample))
    (hv : validate schema = none) (hc : check_schema schema = none) :
    (end_to_end validate check_schema llm text schema instructions
        examples).2
        = [Event.validation, Event.validation, Event.promptBuild,
           Event.conversion, Event.llmInvoke]
    ∧ (end_to_end validate check_schema llm text schema instructions
        examples).2.count Event.validation = 2
    ∧ ((end_to_end validate check_schema llm text schema instructions
        examples).2.takeWhile
          (fun e => !(e == Event.conversion))).count Event.validation = 2 := by
  have hevs : (end_to_end validate check_schema llm text schema instructions
      examples).2
      = [Event.validation, Event.validation, Event.promptBuild,
         Event.conversion, Event.llmInvoke] := by
    simp [end_to_end, mkExtractRequest, extraction_runnable, hv, hc]
  refine ⟨hevs, ?_, ?_⟩ <;> rw [hevs] <;> decide

/-- C4 witness: a concrete end-to-end run validating twice, both times
before the conversion. -/
theorem end_to_end_validates_twice_before_conversion_witness :
    noneChecker personSchema = none
    ∧ ((end_to_end noneChecker noneChecker johnLlm "John is 30" personSchema
          none none).2
        = [Event.validation, Event.validation, Event.promptBuild,
           Event.conversion, Event.llmInvoke]
       ∧ (end_to_end noneChecker noneChecker johnLlm "John is 30" personSchema
          none none).2.count Event.validation = 2
       ∧ ((end_to_end noneChecker noneChecker johnLlm "John is 30" personSchema
          none none).2.takeWhile
            (fun e => !(e == Event.conversion))).count Event.validation = 2) :=
  ⟨rfl,
   end_to_end_validates_twice_before_conversion noneChecker noneChecker johnLlm
     "John is 30" personSchema none none rfl rfl⟩

/-- C6: the schema name derived on line 101 equals the schema's `title`
field verbatim when present and the empty string when absent, and the
converter's `name` field is that same value — no name is invented. -/
theorem schemaName_from_title (schema : JsonDict) :
    (∀ t, dictGet schema "title" = some t → schemaName schema = t)
    ∧ (dictGet schema "title" = none → schemaName schema = Json.str "")
    ∧ ∃ rest, convert_json_schema_to_openai_schema schema
        = Json.obj (("name", schemaName schema) :: rest) := by
  refine ⟨fun t ht => ?_, fun hn => ?_, ⟨_, rfl⟩⟩
  · simp [schemaName, dictGetD, ht]
  · simp [schemaName, dictGetD, hn]

/-- C6 witness: `title: "Person"` yields the name "Person"; a schema with
no `title` yields the empty string. -/
theorem schemaName_from_title_witness :
    (dictGet personSchema "title" = some (Json.str "Person")
     ∧ schemaName personSchema = Json.str "Person")
    ∧ (dictGet bogusSchema "title" = none
       ∧ schemaName bogusSchema = Json.str "") :=
  ⟨⟨rfl, (schemaName_from_title personSchema).1 (Json.str "Person") rfl⟩,
   ⟨rfl, (schemaName_from_title bogusSchema).2.1 rfl⟩⟩

/-- C7: for every schema that passes structural validation, conversion to
the function descriptor is total — the pipeline after a successful
validation always reaches a successful response, with no conversion or
prompt-building error — and deterministic: converting equal schemas yields
identical descriptors. -/
theorem convert_total_deterministic
    (check_schema : SchemaValidator) (llm : LlmService)
    (req : ExtractRequest) (h : check_schema req.json_schema = none) :
    (∃ r, (extraction_runnable check_schema llm req).1 = Except.ok r)
    ∧ ∀ s1 s2 : JsonDict, s1 = s2 →
        convert_json_schema_to_openai_schema s1
          = convert_json_schema_to_openai_schema s2 := by
  refine ⟨⟨⟨llm (convert_json_schema_to_openai_schema req.json_schema)
      (make_prompt_template req.instructions req.examples
        (schemaName req.json_schema) req.text) req.text⟩, ?_⟩,
    fun s1 s2 hs => by rw [hs]⟩
  simp [extraction_runnable, h]

/-- C7 witness: the validated Person schema converts without error and
deterministically. -/
theorem convert_total_deterministic_witness :
    bogusChecker reqPerson.json_schema = none
    ∧ ((∃ r, (extraction_runnable bogusChecker johnLlm reqPerson).1
          = Except.ok r)
       ∧ ∀ s1 s2 : JsonDict, s1 = s2 →
          convert_json_schema_to_openai_schema s1
            = convert_json_schema_to_openai_schema s2) :=
  ⟨rfl, convert_total_deterministic bogusChecker johnLlm reqPerson rfl⟩

/-- C8: the prompt built for N few-shot examples holds exactly the N
rendered exchanges, in the supplied order, between the system message and
the bound input text; the bound input text is always the final component;
with zero examples there is no example section at all. -/
theorem make_prompt_template_shape (instructions : Option String)
    (exs : List FewShotExample) (name : Json) (text : String) :
    ((make_prompt_template instructions (some exs) name text).drop 1).dropLast
        = exs.flatMap renderExample
    ∧ (make_prompt_template instructions (some exs) name text).length
        = 2 * exs.length + 2
    ∧ (make_prompt_template instructions (some exs) name text).getLast?
        = some (inputMsg text)
    ∧ (exs = [] →
        make_prompt_template instructions (some exs) name text
          = [systemMessage instructions name, inputMsg text]) := by
  refine ⟨?_, ?_, ?_, fun hnil => by simp [make_prompt_template, hnil]⟩
  · simp [make_prompt_template]
  · simp only [make_prompt_template, Option.getD_some, List.length_append,
      List.length_singleton, flatMap_renderExample_length]
    omega
  · simp only [make_prompt_template, List.singleton_append]
    rw [List.getLast?_concat]

/-- C8 witness: with zero examples, the prompt is just the system message
followed by the bound input text. -/
theorem make_prompt_template_shape_witness :
    make_prompt_template none (some []) (Json.str "Person") "John is 30"
      = [systemMessage none (Json.str "Person"), inputMsg "John is 30"] :=
  (make_prompt_template_shape none [] (Json.str "Person") "John is 30").2.2.2
    rfl

/-- C10: a successfully constructed ExtractRequest always carries a
json_schema the validator accepted (and carries it unchanged); for any
schema the validator rejects, construction fails with the validator's
message, so extraction_runnable is never entered with such a schema via
the public entry point. -/
theorem mkExtractRequest_validates (validate : SchemaValidator)
    (text : String) (schema : JsonDict) (instructions : Option String)
    (examples : Option (List FewShotExample)) :
    (∀ req, (mkExtractRequest validate text schema instructions examples).1
        = Except.ok req
        → validate req.json_schema = none ∧ req.json_schema = schema)
    ∧ ∀ msg, validate schema = some msg →
        (mkExtractRequest validate text schema instructions examples).1
          = Except.error msg := by
  constructor
  · intro req hreq
    cases hv : validate schema with
    | some m => simp [mkExtractRequest, hv] at hreq
    | none =>
        simp only [mkExtractRequest, hv] at hreq
        injection hreq with h
        subst h
        exact ⟨hv, rfl⟩
  · intro msg hmsg
    simp [mkExtractRequest, hmsg]

/-- C10 witness: the Person schema passes and is carried unchanged into the
request; the bogus schema makes construction fail with the validator's
message. -/
theorem mkExtractRequest_validates_witness :
    (bogusChecker reqPerson.json_schema = none
     ∧ reqPerson.json_schema = personSchema)
    ∧ (mkExtractRequest bogusChecker "John is 30" bogusSchema none none).1
        = Except.error "bogus is not a valid type" :=
  ⟨(mkExtractRequest_validates bogusChecker "John is 30" personSchema none
      none).1 reqPerson rfl,
   (mkExtractRequest_validates bogusChecker "John is 30" bogusSchema none
      none).2 "bogus is not a valid type" rfl⟩

end LangchainExtract
